import Mathlib

/-
Verification of the BASP instance core (caf/io/basp/instance.cpp).

The definitions below shallowly embed the data model and the operations of
the BASP protocol instance.  Pure control flow of instance.cpp is translated
directly; collaborators that live outside the given sources (the header
codec of header.cpp, the routing table of routing_table.cpp, and the binary
serializer for payloads) are modelled from the specification and marked as
such in their doc comments.  Machine integers are Nat with explicit
truncation modulo 2 ^ 32 where the source casts to uint32_t.
-/

set_option autoImplicit false

namespace Basp

/-- A wire byte; the binary serializer is treated as network-neutral, so we
model bytes simply as natural numbers produced and consumed consistently. -/
abbrev Byte := Nat

/-- Broker-supplied opaque identifier for one transport channel. -/
abbrev Handle := Nat

/-- 64-bit actor identifier. -/
abbrev ActorId := Nat

/-- Sentinel for an absent actor (invalid_actor_id in the source). -/
def invalid_actor_id : ActorId := 0

/-- Node identity: an opaque token with one sentinel value for
unknown/absent, matching node_id and its sentinel in the source. -/
inductive NodeId where
  | none
  | node (v : Nat)
deriving DecidableEq, Repr

/-- Operation tag of a frame (enum message_type in the source). -/
inductive MessageType where
  | server_handshake
  | client_handshake
  | dispatch_message
  | announce_proxy
  | kill_proxy
  | heartbeat
  | udp_server_handshake
  | udp_client_handshake
deriving DecidableEq, Repr

/-- Wire value of an operation tag. -/
def MessageType.toNat : MessageType → Nat
  | MessageType.server_handshake => 0
  | MessageType.client_handshake => 1
  | MessageType.dispatch_message => 2
  | MessageType.announce_proxy => 3
  | MessageType.kill_proxy => 4
  | MessageType.heartbeat => 5
  | MessageType.udp_server_handshake => 6
  | MessageType.udp_client_handshake => 7

/-- Decode an operation tag; unknown tags fail, making header
deserialization fail as the binary deserializer does on a bad enum value. -/
def MessageType.ofTag : Nat → Option MessageType
  | 0 => some MessageType.server_handshake
  | 1 => some MessageType.client_handshake
  | 2 => some MessageType.dispatch_message
  | 3 => some MessageType.announce_proxy
  | 4 => some MessageType.kill_proxy
  | 5 => some MessageType.heartbeat
  | 6 => some MessageType.udp_server_handshake
  | 7 => some MessageType.udp_client_handshake
  | _ => Option.none

/-- Fixed-size frame header (struct header in the source). -/
structure Header where
  operation : MessageType
  flags : Nat
  payload_len : Nat
  operation_data : Nat
  source_node : NodeId
  dest_node : NodeId
  source_actor : ActorId
  dest_actor : ActorId
deriving DecidableEq, Repr

/-- The only defined flag bit (header::named_receiver_flag). -/
def named_receiver_flag : Nat := 1

/-- Test a flag bit, as header::has does in the source. -/
def Header.hasFlag (h : Header) (f : Nat) : Bool :=
  (h.flags &&& f) != 0

/-- Big-endian bytes of a natural number, fixed width, value truncated
modulo 2 ^ (8 * width). -/
def bytesOfNat : Nat → Nat → List Byte
  | 0, _ => []
  | w + 1, n => bytesOfNat w (n / 256) ++ [n % 256]

/-- Inverse of bytesOfNat on in-range values. -/
def natOfBytes : List Byte → Nat
  | [] => 0
  | b :: bs => b * 256 ^ bs.length + natOfBytes bs

/-- Modelled from the spec: the NodeId wire encoding.  The source defers the
node-id encoding to its own binary serializer (header.cpp and the node_id
serializer are not part of the given sources); the spec requires only a
self-consistent fixed-position encoding, so we fix 21 bytes: one tag byte
for the sentinel and twenty value bytes. -/
def encodeNodeId : NodeId → List Byte
  | NodeId.none => 0 :: List.replicate 20 0
  | NodeId.node v => 1 :: bytesOfNat 20 v

/-- Modelled from the spec: NodeId decoder matching encodeNodeId. -/
def decodeNodeId (bs : List Byte) : Option NodeId :=
  match bs with
  | [] => Option.none
  | t :: r =>
    if t = 0 then some NodeId.none
    else if t = 1 then some (NodeId.node (natOfBytes r))
    else Option.none

/-- Size in bytes of a serialized header (basp::header_size; the source
reserves 72 bytes for it in instance::write). -/
def header_size : Nat := 72

/-- Modelled from the spec: serialize a header field by field in fixed
order into exactly header_size bytes (operation, flags, payload_len,
operation_data, source_node, dest_node, source_actor, dest_actor). -/
def encodeHeader (h : Header) : List Byte :=
  h.operation.toNat :: h.flags % 256 :: bytesOfNat 4 h.payload_len
    ++ bytesOfNat 8 h.operation_data
    ++ encodeNodeId h.source_node
    ++ encodeNodeId h.dest_node
    ++ bytesOfNat 8 h.source_actor
    ++ bytesOfNat 8 h.dest_actor

/-- Modelled from the spec: header deserialization; fails on short input or
an unknown operation tag, as the binary deserializer does. -/
def decodeHeader (buf : List Byte) : Option Header := do
  if buf.length < header_size then failure
  let op ← MessageType.ofTag (buf.getD 0 0)
  let flags := buf.getD 1 0
  let plen := natOfBytes ((buf.drop 2).take 4)
  let opdata := natOfBytes ((buf.drop 6).take 8)
  let src ← decodeNodeId ((buf.drop 14).take 21)
  let dst ← decodeNodeId ((buf.drop 35).take 21)
  let sa := natOfBytes ((buf.drop 56).take 8)
  let da := natOfBytes ((buf.drop 64).take 8)
  pure (Header.mk op flags plen opdata src dst sa da)

theorem bytesOfNat_length (w n : Nat) : (bytesOfNat w n).length = w := by
  induction w generalizing n with
  | zero => rfl
  | succ k ih => simp [bytesOfNat, ih]

theorem encodeNodeId_length (n : NodeId) : (encodeNodeId n).length = 21 := by
  cases n <;> simp [encodeNodeId, bytesOfNat_length]

theorem encodeHeader_length (h : Header) :
    (encodeHeader h).length = header_size := by
  simp [encodeHeader, header_size, bytesOfNat_length, encodeNodeId_length]

/-- Modelled from the spec: classification predicate is_handshake of
header.hpp, true exactly on the four handshake operations. -/
def is_handshake (h : Header) : Bool :=
  match h.operation with
  | MessageType.server_handshake => true
  | MessageType.client_handshake => true
  | MessageType.udp_server_handshake => true
  | MessageType.udp_client_handshake => true
  | _ => false

/-- Modelled from the spec: classification predicate is_heartbeat of
header.hpp. -/
def is_heartbeat (h : Header) : Bool :=
  match h.operation with
  | MessageType.heartbeat => true
  | _ => false

/-- Modelled from the spec: the validity predicate of header.cpp.
Handshakes must carry a payload, heartbeats and announce_proxy carry
none, and announce_proxy must name a destination actor. -/
def valid (h : Header) : Bool :=
  (if is_handshake h then h.payload_len > 0 else true) &&
  (if is_heartbeat h || h.operation == MessageType.announce_proxy then
      h.payload_len == 0
    else true) &&
  (if h.operation == MessageType.announce_proxy then
      h.dest_actor != invalid_actor_id
    else true)

/-- Modelled from the spec: the serialized form of a string (the binary
serializer for payload fields is external; the spec only requires a
self-consistent encoding, so we length-prefix the character codes). -/
def encodeString (s : String) : List Byte :=
  s.length :: s.data.map Char.toNat

/-- Modelled from the spec: string deserialization matching encodeString,
returning the decoded string and the remaining bytes; fails on short
input. -/
def decodeString (bs : List Byte) : Option (String × List Byte) :=
  match bs with
  | [] => Option.none
  | n :: rest =>
    if n ≤ rest.length then
      some (String.mk ((rest.take n).map Char.ofNat), rest.drop n)
    else Option.none

/-- Modelled from the spec: deserialize a count-prefixed list of strings
(the set of interface signatures in a server handshake payload). -/
def decodeSigs : Nat → List Byte → Option (List String × List Byte)
  | 0, bs => some ([], bs)
  | n + 1, bs =>
    match decodeString bs with
    | Option.none => Option.none
    | some (s, rest) =>
      match decodeSigs n rest with
      | Option.none => Option.none
      | some (ss, rest2) => some (s :: ss, rest2)

/-- Modelled from the spec: deserialize the actor id and signature set that
follow the application identifier in a server handshake payload, matching
the source call bd of aid and sigs. -/
def decodeAidSigs (bs : List Byte) : Option (ActorId × List String) :=
  if bs.length < 9 then Option.none
  else
    match bs.drop 8 with
    | [] => Option.none
    | n :: r =>
      match decodeSigs n r with
      | Option.none => Option.none
      | some (sigs, _) => some (natOfBytes (bs.take 8), sigs)

/-- Modelled from the spec: deserialize the forwarding stack and the opaque
message of a dispatch_message payload, matching the source call bd of
forwarding_stack and msg.  The stack is count-prefixed actor ids and the
message encoding is opaque, so the remaining bytes are the message. -/
def decodeStackMsg (bs : List Byte) : Option (List ActorId × List Byte) :=
  match bs with
  | [] => Option.none
  | n :: r => if n ≤ r.length then some (r.take n, r.drop n) else Option.none

/-- Modelled from the spec: the serialized form of a forwarding stack, the
inverse of the stack part of decodeStackMsg. -/
def encodeStack (stack : List ActorId) : List Byte :=
  stack.length :: stack

/-- Modelled from the spec: deserialize an error value (the reason of a
kill_proxy payload); the error encoding is opaque, we require a nonempty
buffer and read one code. -/
def decodeError (bs : List Byte) : Option Nat :=
  match bs with
  | [] => Option.none
  | n :: _ => some n

/-- A routing lookup result: the handle whose write buffer the endpoint
references, and the next-hop node identity. -/
structure Endpoint where
  hdl : Handle
  next_hop : NodeId
deriving DecidableEq, Repr

/-- Modelled from the spec: the routing table of routing_table.cpp, which
is not among the given sources.  Direct routes are an association from
handles to nodes; the handle-to-node and node-to-handle views are the two
projections.  Indirect routes are deferred by the spec (structure only,
never populated by this core), so they are omitted. -/
structure RoutingTable where
  direct : List (Handle × NodeId)
deriving DecidableEq, Repr

/-- Modelled from the spec: reverse lookup by handle; the sentinel node if
the handle is unknown. -/
def RoutingTable.lookup_node (t : RoutingTable) (h : Handle) : NodeId :=
  match t.direct.find? (fun p => p.1 = h) with
  | some p => p.2
  | Option.none => NodeId.none

/-- Modelled from the spec: direct handle lookup by node, no indirection. -/
def RoutingTable.lookup_hdl (t : RoutingTable) (n : NodeId) : Option Handle :=
  (t.direct.find? (fun p => p.2 = n)).map Prod.fst

/-- Modelled from the spec: lookup of a path to a node; a direct endpoint
if one exists (indirect routes are never populated by this core). -/
def RoutingTable.lookup (t : RoutingTable) (n : NodeId) : Option Endpoint :=
  (t.direct.find? (fun p => p.2 = n)).map (fun p => Endpoint.mk p.1 n)

/-- Modelled from the spec: insert a direct route; an existing entry for
either key is replaced so that the two views stay mutually consistent. -/
def RoutingTable.add (t : RoutingTable) (h : Handle) (n : NodeId) :
    RoutingTable :=
  RoutingTable.mk ((h, n) :: t.direct.filter (fun p => p.1 ≠ h ∧ p.2 ≠ n))

/-- Modelled from the spec: erase by handle, returning the new table and
the nodes removed (for which the callback is invoked). -/
def RoutingTable.eraseHandle (t : RoutingTable) (h : Handle) :
    RoutingTable × List NodeId :=
  (RoutingTable.mk (t.direct.filter (fun p => p.1 ≠ h)),
   (t.direct.filter (fun p => p.1 = h)).map Prod.snd)

/-- Modelled from the spec: erase by node identity, symmetric to erasure by
handle. -/
def RoutingTable.eraseNode (t : RoutingTable) (n : NodeId) :
    RoutingTable × List NodeId :=
  (RoutingTable.mk (t.direct.filter (fun p => p.2 ≠ n)),
   (t.direct.filter (fun p => p.2 = n)).map Prod.snd)

theorem RoutingTable.lookup_add (t : RoutingTable) (h : Handle) (n : NodeId) :
    (t.add h n).lookup n = some (Endpoint.mk h n) := by
  simp [RoutingTable.add, RoutingTable.lookup]

/-- Connection state of a stream channel. -/
inductive ConnectionState where
  | await_header
  | await_payload
  | close_connection
deriving DecidableEq, Repr

/-- Observable effect of processing: a call into the callee interface, a
hook notification, a callback of remove_published_actor, or a flush of an
endpoint write buffer handed to the broker.  Effects are recorded in call
order. -/
inductive Event where
  | purge_state (n : NodeId)
  | finalize_handshake (n : NodeId) (aid : ActorId) (sigs : List String)
  | learned_new_node_directly (n : NodeId)
  | deliver_named (src : NodeId) (src_actor : ActorId) (receiver_name : Nat)
      (mid : Nat) (stack : List ActorId) (msg : List Byte)
  | deliver (src : NodeId) (src_actor : ActorId) (dst_actor : ActorId)
      (mid : Nat) (stack : List ActorId) (msg : List Byte)
  | proxy_announced (n : NodeId) (aid : ActorId)
  | kill_proxy (n : NodeId) (aid : ActorId) (reason : Nat)
  | handle_heartbeat (n : NodeId)
  | message_forwarded
  | message_forwarding_failed
  | message_sent (next_hop : NodeId)
  | message_sending_failed
  | removed_cb (aid : ActorId) (port : Nat)
  | flush (h : Handle)
deriving DecidableEq, Repr

/-- The BASP instance: immutable identity and configuration together with
its mutable state (routing table, per-handle write buffers, published
actors).  The published-actors association has unique port keys, mirroring
the std map of the source. -/
structure Instance where
  this_node : NodeId
  appIdentifier : String
  table : RoutingTable
  buffers : Handle → List Byte
  published : List (Nat × ActorId × List String)

/-- Append bytes to the write buffer of one handle. -/
def Instance.appendBuf (ins : Instance) (h : Handle) (bs : List Byte) :
    Instance :=
  { ins with buffers := fun k => if k = h then ins.buffers k ++ bs
                                 else ins.buffers k }

/-- Replace the write buffer of one handle. -/
def Instance.setBuf (ins : Instance) (h : Handle) (b : List Byte) :
    Instance :=
  { ins with buffers := fun k => if k = h then b else ins.buffers k }

/-- The cleanup code of the err lambdas in instance.cpp: erase every route
bound to the handle and invoke purge_state on the callee for each node
thus removed. -/
def eraseAndPurge (ins : Instance) (h : Handle) : Instance × List Event :=
  let r := ins.table.eraseHandle h
  ({ ins with table := r.1 }, r.2.map Event.purge_state)

/-- A stream data event as delivered by the broker (new_data_msg). -/
structure NewDataMsg where
  handle : Handle
  buf : List Byte

/-- The reserved header region (uninitialized placeholder bytes in the
source; their value is irrelevant since the header is back-patched). -/
def placeholder : List Byte := List.replicate header_size 0

/-- Overwrite the bytes of a list starting at a position (the in-place
header back-patch of the stream serializer over the reserved region). -/
def overwriteAt (l : List Byte) (pos : Nat) (bs : List Byte) : List Byte :=
  l.take pos ++ bs ++ l.drop (pos + bs.length)

/-- instance::write on a raw buffer (instance.cpp lines 610 to 637): with a
payload writer, reserve header_size bytes, let the writer append the
payload, set payload_len to the number of bytes appended truncated to
uint32, and back-patch the header over the reserved region; without one,
serialize the header directly.  The payload writer is modelled by the byte
list it appends.  Returns the new buffer and the (patched) header. -/
def instanceWrite (buf : List Byte) (hdr : Header) (pw : Option (List Byte)) :
    List Byte × Header :=
  match pw with
  | some pwBytes =>
    let pos := buf.length
    let buf1 := buf ++ placeholder
    let buf2 := buf1 ++ pwBytes
    let plen := buf2.length - pos - header_size
    let hdr2 := { hdr with payload_len := plen % 2 ^ 32 }
    (overwriteAt buf2 pos (encodeHeader hdr2), hdr2)
  | Option.none => (buf ++ encodeHeader hdr, hdr)

theorem instanceWrite_eq (buf : List Byte) (hdr : Header)
    (pwBytes : List Byte) :
    instanceWrite buf hdr (some pwBytes) =
      (buf ++ encodeHeader { hdr with payload_len := pwBytes.length % 2 ^ 32 }
           ++ pwBytes,
       { hdr with payload_len := pwBytes.length % 2 ^ 32 }) := by
  have hplen : (buf ++ placeholder ++ pwBytes).length - buf.length
      - header_size = pwBytes.length := by
    simp [placeholder, header_size]
  have henc : (encodeHeader
      { hdr with payload_len := pwBytes.length % 2 ^ 32 }).length
      = header_size := encodeHeader_length _
  simp only [instanceWrite, hplen, Prod.mk.injEq]
  refine And.intro ?_ trivial
  · unfold overwriteAt
    rw [List.append_assoc buf placeholder pwBytes]
    rw [List.take_left]
    rw [henc]
    have hdrop : (buf ++ (placeholder ++ pwBytes)).drop
        (buf.length + header_size) = pwBytes := by
      rw [List.drop_append_eq_append_drop]
      simp [placeholder, header_size]
    rw [hdrop]

/-- instance::write_client_handshake: build a client_handshake header for
the remote side and write it with the application identifier as payload. -/
def writeClientHandshake (appid : String) (this_node remote : NodeId)
    (buf : List Byte) : List Byte :=
  (instanceWrite buf
    (Header.mk MessageType.client_handshake 0 0 0 this_node remote
      invalid_actor_id invalid_actor_id)
    (some (encodeString appid))).1

/-- The message-processing core of instance::handle for new_data_msg
(instance.cpp lines 85 to 259): given the validated header, the
originating handle and the optional payload, either forward the frame,
handle it locally by operation, or close the connection via the cleanup
code.  Returns the next connection state, the new instance state and the
emitted effects in order. -/
def handleProcessed (ins : Instance) (hdl : Handle) (hdr : Header)
    (payload : Option (List Byte)) :
    ConnectionState × Instance × List Event :=
  let err := fun (i : Instance) (evs : List Event) =>
    let ep := eraseAndPurge i hdl
    (ConnectionState.close_connection, ep.1, evs ++ ep.2)
  if is_handshake hdr = false ∧ is_heartbeat hdr = false ∧
      hdr.dest_node ≠ ins.this_node then
    match ins.table.lookup hdr.dest_node with
    | some path =>
      (ConnectionState.await_header,
       ins.appendBuf path.hdl (encodeHeader hdr ++ payload.getD []),
       [Event.flush path.hdl, Event.message_forwarded])
    | Option.none =>
      (ConnectionState.await_header, ins, [Event.message_forwarding_failed])
  else
    match hdr.operation with
    | MessageType.server_handshake =>
      match payload with
      | Option.none => err ins []
      | some pl =>
        if pl.length ≠ hdr.payload_len then err ins []
        else
          match decodeString pl with
          | Option.none => err ins []
          | some (remote_appid, rest) =>
            if remote_appid ≠ ins.appIdentifier then err ins []
            else
              match decodeAidSigs rest with
              | Option.none => err ins []
              | some (aid, sigs) =>
                if hdr.source_node = ins.this_node then
                  err ins [Event.finalize_handshake hdr.source_node aid sigs]
                else if (ins.table.lookup_hdl hdr.source_node).isSome then
                  err ins [Event.finalize_handshake hdr.source_node aid sigs]
                else
                  let ins1 :=
                    { ins with table := ins.table.add hdl hdr.source_node }
                  match ins1.table.lookup hdr.source_node with
                  | Option.none => err ins1 []
                  | some path =>
                    let ins2 := ins1.setBuf path.hdl
                      (writeClientHandshake ins1.appIdentifier ins1.this_node
                        hdr.source_node (ins1.buffers path.hdl))
                    (ConnectionState.await_header, ins2,
                     [Event.learned_new_node_directly hdr.source_node,
                      Event.finalize_handshake hdr.source_node aid sigs,
                      Event.flush path.hdl])
    | MessageType.client_handshake =>
      if (ins.table.lookup_hdl hdr.source_node).isSome then
        (ConnectionState.await_header, ins, [])
      else
        match payload with
        | Option.none => err ins []
        | some pl =>
          if pl.length ≠ hdr.payload_len then err ins []
          else
            match decodeString pl with
            | Option.none => err ins []
            | some (remote_appid, _) =>
              if remote_appid ≠ ins.appIdentifier then err ins []
              else
                (ConnectionState.await_header,
                 { ins with table := ins.table.add hdl hdr.source_node },
                 [Event.learned_new_node_directly hdr.source_node])
    | MessageType.dispatch_message =>
      match payload with
      | Option.none => err ins []
      | some pl =>
        if pl.length ≠ hdr.payload_len then err ins []
        else if hdr.hasFlag named_receiver_flag then
          if pl.length < 8 then err ins []
          else
            match decodeStackMsg (pl.drop 8) with
            | Option.none => err ins []
            | some (stack, msg) =>
              (ConnectionState.await_header, ins,
               [Event.deliver_named hdr.source_node hdr.source_actor
                  (natOfBytes (pl.take 8)) hdr.operation_data stack msg])
        else
          match decodeStackMsg pl with
          | Option.none => err ins []
          | some (stack, msg) =>
            (ConnectionState.await_header, ins,
             [Event.deliver hdr.source_node hdr.source_actor hdr.dest_actor
                hdr.operation_data stack msg])
    | MessageType.announce_proxy =>
      (ConnectionState.await_header, ins,
       [Event.proxy_announced hdr.source_node hdr.dest_actor])
    | MessageType.kill_proxy =>
      match payload with
      | Option.none => err ins []
      | some pl =>
        if pl.length ≠ hdr.payload_len then err ins []
        else
          match decodeError pl with
          | Option.none => err ins []
          | some rsn =>
            (ConnectionState.await_header, ins,
             [Event.kill_proxy hdr.source_node hdr.source_actor rsn])
    | MessageType.heartbeat =>
      (ConnectionState.await_header, ins,
       [Event.handle_heartbeat hdr.source_node])
    | MessageType.udp_server_handshake => err ins []
    | MessageType.udp_client_handshake => err ins []

/-- instance::handle for new_data_msg (instance.cpp lines 53 to 260): in
the payload phase, check the payload size against the retained header and
process; otherwise deserialize and validate the header from the buffer,
await the payload when one is announced, and process immediately when
not.  Decode or validity failure runs the cleanup code and closes the
connection. -/
def Instance.handle (ins : Instance) (dm : NewDataMsg) (hdr : Header)
    (is_payload : Bool) : ConnectionState × Instance × List Event :=
  if is_payload then
    if dm.buf.length ≠ hdr.payload_len then
      let ep := eraseAndPurge ins dm.handle
      (ConnectionState.close_connection, ep.1, ep.2)
    else handleProcessed ins dm.handle hdr (some dm.buf)
  else
    match decodeHeader dm.buf with
    | Option.none =>
      let ep := eraseAndPurge ins dm.handle
      (ConnectionState.close_connection, ep.1, ep.2)
    | some h =>
      if valid h = false then
        let ep := eraseAndPurge ins dm.handle
        (ConnectionState.close_connection, ep.1, ep.2)
      else if 0 < h.payload_len then
        (ConnectionState.await_payload, ins, [])
      else handleProcessed ins dm.handle h Option.none

/-- instance::handle_node_shutdown (instance.cpp lines 504 to 514): a
no-op on the sentinel node, otherwise erase the routes of the affected
node and purge callee state for each removed node. -/
def Instance.handle_node_shutdown (ins : Instance) (n : NodeId) :
    Instance × List Event :=
  if n = NodeId.none then (ins, [])
  else
    let r := ins.table.eraseNode n
    ({ ins with table := r.1 }, r.2.map Event.purge_state)

/-- The loop body of the port-zero branch of remove_published_actor:
walk the map, erase each entry published for the given actor, invoke the
callback for each erased entry and count the removals. -/
def removeAllFor (whom : ActorId) :
    List (Nat × ActorId × List String) →
    Nat × List (Nat × ActorId × List String) × List Event
  | [] => (0, [], [])
  | p :: rest =>
    let r := removeAllFor whom rest
    if p.2.1 = whom then
      (r.1 + 1, r.2.1, Event.removed_cb p.2.1 p.1 :: r.2.2)
    else
      (r.1, p :: r.2.1, r.2.2)

/-- instance::remove_published_actor for an actor and port (instance.cpp
lines 556 to 583): with a nonzero port erase at most the entry at that
port and only if it is published for the given actor; with port zero
erase every entry published for that actor.  The callback invocations are
recorded as events. -/
def Instance.remove_published_actor (ins : Instance) (whom : ActorId)
    (port : Nat) : Nat × Instance × List Event :=
  if port ≠ 0 then
    match ins.published.find? (fun q => q.1 = port) with
    | some p =>
      if p.2.1 = whom then
        (1, { ins with published := ins.published.eraseP (fun q => q.1 = port) },
         [Event.removed_cb p.2.1 port])
      else (0, ins, [])
    | Option.none => (0, ins, [])
  else
    let r := removeAllFor whom ins.published
    (r.1, { ins with published := r.2.1 }, r.2.2)

/-- instance::dispatch (instance.cpp lines 585 to 608): look up a path to
the receiving node; with none, emit message_sending_failed and return
false; otherwise serialize a dispatch_message header whose operation_data
is the message id together with the forwarding stack and the message into
the path write buffer, flush, emit message_sent with the next hop, and
return true. -/
def Instance.dispatch (ins : Instance) (sender : Option (NodeId × ActorId))
    (stack : List ActorId) (receiverNode : NodeId) (receiverId : ActorId)
    (mid : Nat) (msg : List Byte) : Bool × Instance × List Event :=
  match ins.table.lookup receiverNode with
  | Option.none => (false, ins, [Event.message_sending_failed])
  | some path =>
    let hdr := Header.mk MessageType.dispatch_message 0 0 mid
      (match sender with | some s => s.1 | Option.none => ins.this_node)
      receiverNode
      (match sender with | some s => s.2 | Option.none => invalid_actor_id)
      receiverId
    let ins1 := ins.setBuf path.hdl
      (instanceWrite (ins.buffers path.hdl) hdr
        (some (encodeStack stack ++ msg))).1
    (true, ins1, [Event.flush path.hdl, Event.message_sent path.next_hop])

/-- Claim C2: a frame that is neither a handshake nor a heartbeat and whose
destination is not this node, when a path to the destination exists, is
forwarded: the header is serialized unchanged into the path write buffer
followed verbatim by the payload bytes (if any), the endpoint is flushed,
the message_forwarded hook fires, the handler returns await_header, and no
callee delivery occurs (the emitted effects are exactly the flush and the
hook). -/
theorem claim_C2 (ins : Instance) (hdl : Handle) (hdr : Header)
    (payload : Option (List Byte)) (path : Endpoint)
    (h1 : is_handshake hdr = false) (h2 : is_heartbeat hdr = false)
    (h3 : hdr.dest_node ≠ ins.this_node)
    (h4 : ins.table.lookup hdr.dest_node = some path) :
    handleProcessed ins hdl hdr payload =
      (ConnectionState.await_header,
       ins.appendBuf path.hdl (encodeHeader hdr ++ payload.getD []),
       [Event.flush path.hdl, Event.message_forwarded]) := by
  simp [handleProcessed, h1, h2, h3, h4]

/-- Witness for claim C2 at a concrete instance with a route to node 9 via
handle 3: a dispatch_message addressed to node 9 is forwarded there. -/
theorem claim_C2_witness :
    handleProcessed
      (Instance.mk (NodeId.node 1) "app" (RoutingTable.mk [(3, NodeId.node 9)])
        (fun _ => []) [])
      5
      (Header.mk MessageType.dispatch_message 0 2 0 (NodeId.node 4)
        (NodeId.node 9) 0 0)
      (some [10, 11]) =
      (ConnectionState.await_header,
       (Instance.mk (NodeId.node 1) "app" (RoutingTable.mk [(3, NodeId.node 9)])
         (fun _ => []) []).appendBuf 3
         (encodeHeader (Header.mk MessageType.dispatch_message 0 2 0
            (NodeId.node 4) (NodeId.node 9) 0 0) ++ [10, 11]),
       [Event.flush 3, Event.message_forwarded]) := by
  exact claim_C2 _ 5 _ (some [10, 11]) (Endpoint.mk 3 (NodeId.node 9))
    rfl rfl (by decide) rfl

/-- Claim C6: a frame that requires forwarding but has no route to its
destination is dropped softly: the message_forwarding_failed hook is the
only emitted effect (so no callee delivery, no flush), the instance state
is returned unchanged (no bytes written to any buffer, routing table
untouched), and the handler stays in await_header. -/
theorem claim_C6 (ins : Instance) (hdl : Handle) (hdr : Header)
    (payload : Option (List Byte))
    (h1 : is_handshake hdr = false) (h2 : is_heartbeat hdr = false)
    (h3 : hdr.dest_node ≠ ins.this_node)
    (h4 : ins.table.lookup hdr.dest_node = Option.none) :
    handleProcessed ins hdl hdr payload =
      (ConnectionState.await_header, ins,
       [Event.message_forwarding_failed]) := by
  simp [handleProcessed, h1, h2, h3, h4]

/-- Witness for claim C6 at a concrete instance with an empty routing
table: a dispatch_message addressed to node 9 is dropped with the
message_forwarding_failed hook and the state is unchanged. -/
theorem claim_C6_witness :
    handleProcessed
      (Instance.mk (NodeId.node 1) "app" (RoutingTable.mk []) (fun _ => []) [])
      5
      (Header.mk MessageType.dispatch_message 0 2 0 (NodeId.node 4)
        (NodeId.node 9) 0 0)
      (some [10, 11]) =
      (ConnectionState.await_header,
       Instance.mk (NodeId.node 1) "app" (RoutingTable.mk []) (fun _ => []) [],
       [Event.message_forwarding_failed]) := by
  exact claim_C6 _ 5 _ (some [10, 11]) rfl rfl (by decide) rfl

/-- Claim C1: in the non-payload phase of the stream handler, a header
that fails to deserialize or fails the validity predicate leads to
close_connection with every routing entry bound to the handle erased and
purge_state emitted for each node thus removed; a header that decodes, is
valid and announces a payload leads to await_payload with no state change
and no callee call. -/
theorem claim_C1 (ins : Instance) (dm : NewDataMsg) (hdr0 : Header) :
    (∀ h, decodeHeader dm.buf = some h → valid h = true →
      0 < h.payload_len →
      ins.handle dm hdr0 false = (ConnectionState.await_payload, ins, [])) ∧
    ((decodeHeader dm.buf = Option.none ∨
      (∃ h, decodeHeader dm.buf = some h ∧ valid h = false)) →
      ins.handle dm hdr0 false =
        (ConnectionState.close_connection,
         { ins with table :=
             RoutingTable.mk (ins.table.direct.filter
               (fun p => p.1 ≠ dm.handle)) },
         ((ins.table.direct.filter (fun p => p.1 = dm.handle)).map
            Prod.snd).map Event.purge_state)) := by
  constructor
  · intro h hdec hval hlen
    simp [Instance.handle, hdec, hval, hlen]
  · intro hbad
    rcases hbad with hdec | hbad
    · simp [Instance.handle, hdec, eraseAndPurge, RoutingTable.eraseHandle]
    · rcases hbad with ⟨h, hdec, hval⟩
      simp [Instance.handle, hdec, hval, eraseAndPurge,
        RoutingTable.eraseHandle]

/-- A concrete valid server_handshake header announcing a payload, used by
the witness of claim C1. -/
def exHeaderC1 : Header :=
  Header.mk MessageType.server_handshake 0 10 0 (NodeId.node 5) NodeId.none
    0 0

/-- Witness for claim C1: on an instance with one route bound to handle 3,
a correctly encoded valid header announcing ten payload bytes yields
await_payload without state change, and an empty buffer (header decode
failure) yields close_connection with the route erased and its node
purged. -/
theorem claim_C1_witness :
    (Instance.mk (NodeId.node 1) "app"
        (RoutingTable.mk [(3, NodeId.node 9)]) (fun _ => []) []).handle
      (NewDataMsg.mk 3 (encodeHeader exHeaderC1)) exHeaderC1 false =
      (ConnectionState.await_payload,
       Instance.mk (NodeId.node 1) "app"
         (RoutingTable.mk [(3, NodeId.node 9)]) (fun _ => []) [], []) ∧
    (Instance.mk (NodeId.node 1) "app"
        (RoutingTable.mk [(3, NodeId.node 9)]) (fun _ => []) []).handle
      (NewDataMsg.mk 3 []) exHeaderC1 false =
      (ConnectionState.close_connection,
       { Instance.mk (NodeId.node 1) "app"
           (RoutingTable.mk [(3, NodeId.node 9)]) (fun _ => []) [] with
         table := RoutingTable.mk [] },
       [Event.purge_state (NodeId.node 9)]) := by
  constructor
  · exact (claim_C1 _ (NewDataMsg.mk 3 (encodeHeader exHeaderC1))
      exHeaderC1).1 exHeaderC1 (by decide) (by decide) (by decide)
  · have := (claim_C1
      (Instance.mk (NodeId.node 1) "app"
        (RoutingTable.mk [(3, NodeId.node 9)]) (fun _ => []) [])
      (NewDataMsg.mk 3 []) exHeaderC1).2 (Or.inl (by decide))
    simpa using this

/-- Claim C3: a server_handshake from a fresh node (not this node, no
direct route yet) whose payload decodes with the matching application
identifier adds a direct route from the incoming handle to the source
node, writes a client_handshake frame into the write buffer of that route,
calls learned_new_node_directly and then finalize_handshake in that order,
flushes the endpoint, and returns await_header. -/
theorem claim_C3 (ins : Instance) (hdl : Handle) (hdr : Header)
    (pl rest : List Byte) (aid : ActorId) (sigs : List String)
    (hop : hdr.operation = MessageType.server_handshake)
    (hlen : pl.length = hdr.payload_len)
    (hdec : decodeString pl = some (ins.appIdentifier, rest))
    (hdec2 : decodeAidSigs rest = some (aid, sigs))
    (hfresh : hdr.source_node ≠ ins.this_node)
    (hnoroute : ins.table.lookup_hdl hdr.source_node = Option.none) :
    handleProcessed ins hdl hdr (some pl) =
      (ConnectionState.await_header,
       { ins with
         table := ins.table.add hdl hdr.source_node,
         buffers := fun k =>
           if k = hdl then
             writeClientHandshake ins.appIdentifier ins.this_node
               hdr.source_node (ins.buffers hdl)
           else ins.buffers k },
       [Event.learned_new_node_directly hdr.source_node,
        Event.finalize_handshake hdr.source_node aid sigs,
        Event.flush hdl]) := by
  have hhs : is_handshake hdr = true := by
    simp [is_handshake, hop]
  simp [handleProcessed, hhs, hop, hlen, hdec, hdec2, hfresh, hnoroute,
    RoutingTable.lookup_add, Instance.setBuf]

/-- The server-handshake payload used by the claim C3 witness: the
application identifier, an actor id of zero, and an empty signature set. -/
def exPayloadC3 : List Byte :=
  encodeString "app" ++ [0, 0, 0, 0, 0, 0, 0, 0, 0]

/-- Witness for claim C3: on an instance with an empty routing table, a
server_handshake from node 5 on handle 3 with a matching app identifier
adds the route, buffers the client handshake, notifies the callee in
order and flushes. -/
theorem claim_C3_witness :
    handleProcessed
      (Instance.mk (NodeId.node 1) "app" (RoutingTable.mk []) (fun _ => []) [])
      3
      (Header.mk MessageType.server_handshake 0 exPayloadC3.length 0
        (NodeId.node 5) NodeId.none 0 0)
      (some exPayloadC3) =
      (ConnectionState.await_header,
       { Instance.mk (NodeId.node 1) "app" (RoutingTable.mk [])
           (fun _ => []) [] with
         table := RoutingTable.mk [(3, NodeId.node 5)],
         buffers := fun k =>
           if k = 3 then
             writeClientHandshake "app" (NodeId.node 1) (NodeId.node 5) []
           else [] },
       [Event.learned_new_node_directly (NodeId.node 5),
        Event.finalize_handshake (NodeId.node 5) 0 [],
        Event.flush 3]) := by
  have := claim_C3
    (Instance.mk (NodeId.node 1) "app" (RoutingTable.mk []) (fun _ => []) [])
    3
    (Header.mk MessageType.server_handshake 0 exPayloadC3.length 0
      (NodeId.node 5) NodeId.none 0 0)
    exPayloadC3 [0, 0, 0, 0, 0, 0, 0, 0, 0] 0 []
    rfl rfl (by decide) (by decide) (by decide) rfl
  simpa [RoutingTable.add] using this

/-- A concrete instance whose own identity is node 1, used to refute
claim C4. -/
def exInstC4 : Instance :=
  Instance.mk (NodeId.node 1) "app" (RoutingTable.mk []) (fun _ => []) []

/-- A client_handshake frame that names this node itself as source, with a
payload carrying the matching application identifier. -/
def exHeaderC4 : Header :=
  Header.mk MessageType.client_handshake 0 (encodeString "app").length 0
    (NodeId.node 1) (NodeId.node 1) 0 0

/-- Counterexample to claim C4: processing a client_handshake whose source
node equals this node (with matching app identifier) inserts this node
into the routing table and leaves the connection open in await_header;
the claimed self-exclusion invariant and the claimed connection close both
fail. -/
theorem claim_C4_counterexample :
    exInstC4.this_node = NodeId.node 1 ∧
    (handleProcessed exInstC4 7 exHeaderC4
        (some (encodeString "app"))).2.1.table.direct
      = [(7, NodeId.node 1)] ∧
    (handleProcessed exInstC4 7 exHeaderC4
        (some (encodeString "app"))).1 = ConnectionState.await_header := by
  refine And.intro rfl (And.intro ?_ ?_) <;> decide

/-- Claim C4 as amended: server_handshake processing never inserts this
node — a server handshake whose source is this node closes the connection
after finalize_handshake, leaving only erasure of the routes of the handle as a
table change — but client_handshake processing does insert this node when
the source node equals this node, the node is fresh, and the payload
carries the matching application identifier, leaving the connection in
await_header. -/
theorem claim_C4_amended (ins : Instance) (hdl : Handle) (hdr : Header)
    (pl rest : List Byte) (aid : ActorId) (sigs : List String)
    (hself : hdr.source_node = ins.this_node)
    (hlen : pl.length = hdr.payload_len)
    (hdec : decodeString pl = some (ins.appIdentifier, rest)) :
    (hdr.operation = MessageType.server_handshake →
      decodeAidSigs rest = some (aid, sigs) →
      handleProcessed ins hdl hdr (some pl) =
        (ConnectionState.close_connection,
         { ins with table :=
             RoutingTable.mk (ins.table.direct.filter
               (fun p => p.1 ≠ hdl)) },
         Event.finalize_handshake hdr.source_node aid sigs ::
           ((ins.table.direct.filter (fun p => p.1 = hdl)).map
              Prod.snd).map Event.purge_state)) ∧
    (hdr.operation = MessageType.client_handshake →
      ins.table.lookup_hdl hdr.source_node = Option.none →
      handleProcessed ins hdl hdr (some pl) =
        (ConnectionState.await_header,
         { ins with table := ins.table.add hdl ins.this_node },
         [Event.learned_new_node_directly hdr.source_node])) := by
  constructor
  · intro hop hdec2
    have hhs : is_handshake hdr = true := by
      simp [is_handshake, hop]
    simp [handleProcessed, hhs, hop, hlen, hdec, hdec2, hself,
      eraseAndPurge, RoutingTable.eraseHandle]
  · intro hop hnoroute
    have hhs : is_handshake hdr = true := by
      simp [is_handshake, hop]
    rw [hself] at hnoroute
    simp [handleProcessed, hhs, hop, hlen, hdec, hnoroute, hself]

/-- Witness for the amended claim C4, server branch: a self
server_handshake on the concrete instance closes the connection without
inserting this node. -/
theorem claim_C4_witness :
    handleProcessed exInstC4 7
      (Header.mk MessageType.server_handshake 0 exPayloadC3.length 0
        (NodeId.node 1) NodeId.none 0 0)
      (some exPayloadC3) =
      (ConnectionState.close_connection,
       { exInstC4 with table := RoutingTable.mk [] },
       [Event.finalize_handshake (NodeId.node 1) 0 []]) := by
  have := (claim_C4_amended exInstC4 7
    (Header.mk MessageType.server_handshake 0 exPayloadC3.length 0
      (NodeId.node 1) NodeId.none 0 0)
    exPayloadC3 [0, 0, 0, 0, 0, 0, 0, 0, 0] 0 []
    rfl rfl (by decide)).1 rfl (by decide)
  simpa using this

/-- A concrete instance with one established route (node 9 via handle 3),
used to refute claim C5. -/
def exInstC5 : Instance :=
  Instance.mk (NodeId.node 1) "app" (RoutingTable.mk [(3, NodeId.node 9)])
    (fun _ => []) []

/-- A udp_server_handshake frame announcing one payload byte. -/
def exHeaderC5 : Header :=
  Header.mk MessageType.udp_server_handshake 0 1 0 (NodeId.node 5)
    NodeId.none 0 0

/-- Counterexample to claim C5: a udp_server_handshake processed by the
stream-transport handler is not ignored — the handler returns
close_connection, the routing table entry bound to the handle is erased
and purge_state is invoked, contradicting the claimed await_header with no
routing change and no callee call. -/
theorem claim_C5_counterexample :
    (exInstC5.handle (NewDataMsg.mk 3 [0]) exHeaderC5 true).1
      = ConnectionState.close_connection ∧
    (exInstC5.handle (NewDataMsg.mk 3 [0]) exHeaderC5 true).2.1.table.direct
      = [] ∧
    (exInstC5.handle (NewDataMsg.mk 3 [0]) exHeaderC5 true).2.2
      = [Event.purge_state (NodeId.node 9)] := by
  refine And.intro ?_ (And.intro ?_ ?_) <;> decide

/-- Claim C5 as amended: a frame whose operation is udp_server_handshake
or udp_client_handshake, when processed by the stream-transport handler,
falls into the invalid-operation default branch: the connection is closed,
every routing entry bound to the handle is erased with purge_state invoked
for each removed node, and no other routing change or callee call
occurs. -/
theorem claim_C5_amended (ins : Instance) (hdl : Handle) (hdr : Header)
    (payload : Option (List Byte))
    (hop : hdr.operation = MessageType.udp_server_handshake ∨
           hdr.operation = MessageType.udp_client_handshake) :
    handleProcessed ins hdl hdr payload =
      (ConnectionState.close_connection,
       { ins with table :=
           RoutingTable.mk (ins.table.direct.filter
             (fun p => p.1 ≠ hdl)) },
       ((ins.table.direct.filter (fun p => p.1 = hdl)).map Prod.snd).map
         Event.purge_state) := by
  rcases hop with hop | hop <;>
    simp [handleProcessed, is_handshake, hop, eraseAndPurge,
      RoutingTable.eraseHandle]

/-- Witness for the amended claim C5 at the concrete instance: processing
the udp_server_handshake frame closes the connection, erases the route
bound to handle 3 and purges node 9. -/
theorem claim_C5_witness :
    handleProcessed exInstC5 3 exHeaderC5 (some [0]) =
      (ConnectionState.close_connection,
       { exInstC5 with table := RoutingTable.mk [] },
       [Event.purge_state (NodeId.node 9)]) := by
  have := claim_C5_amended exInstC5 3 exHeaderC5 (some [0]) (Or.inl rfl)
  simpa using this

/-- Claim C7: dispatching to a receiver on another node with no route
returns false, emits message_sending_failed and leaves the state (hence
every write buffer) unchanged; with a route it appends a dispatch_message
header whose operation_data is the message id followed by the serialized
stack and message to the path write buffer, flushes, emits message_sent
with the next-hop node, and returns true. -/
theorem claim_C7 (ins : Instance) (sender : Option (NodeId × ActorId))
    (stack : List ActorId) (rnode : NodeId) (rid : ActorId) (mid : Nat)
    (msg : List Byte) (hpre : rnode ≠ ins.this_node) :
    (ins.table.lookup rnode = Option.none →
      ins.dispatch sender stack rnode rid mid msg =
        (false, ins, [Event.message_sending_failed])) ∧
    (∀ path, ins.table.lookup rnode = some path →
      ∃ hdr2 : Header,
        hdr2.operation = MessageType.dispatch_message ∧
        hdr2.operation_data = mid ∧
        ins.dispatch sender stack rnode rid mid msg =
          (true,
           ins.setBuf path.hdl
             (ins.buffers path.hdl ++ encodeHeader hdr2
               ++ (encodeStack stack ++ msg)),
           [Event.flush path.hdl, Event.message_sent path.next_hop])) := by
  constructor
  · intro hnone
    simp [Instance.dispatch, hnone]
  · intro path hsome
    refine ⟨{ operation := MessageType.dispatch_message, flags := 0,
              payload_len := (encodeStack stack ++ msg).length % 2 ^ 32,
              operation_data := mid,
              source_node :=
                match sender with
                | some s => s.1
                | Option.none => ins.this_node,
              dest_node := rnode,
              source_actor :=
                match sender with
                | some s => s.2
                | Option.none => invalid_actor_id,
              dest_actor := rid }, rfl, rfl, ?_⟩
    simp [Instance.dispatch, hsome, instanceWrite_eq]

/-- Witness for claim C7, covering a concrete receiver on node 9: with an
empty table the dispatch fails softly, and with a route via handle 3 it
returns true with the frame buffered and flushed. -/
theorem claim_C7_witness :
    ((Instance.mk (NodeId.node 1) "app" (RoutingTable.mk [])
        (fun _ => []) []).dispatch
      (some (NodeId.node 1, 4)) [] (NodeId.node 9) 8 17 [42] =
      (false,
       Instance.mk (NodeId.node 1) "app" (RoutingTable.mk [])
         (fun _ => []) [],
       [Event.message_sending_failed])) ∧
    (∃ hdr2 : Header,
      hdr2.operation = MessageType.dispatch_message ∧
      hdr2.operation_data = 17 ∧
      exInstC5.dispatch (some (NodeId.node 1, 4)) [] (NodeId.node 9) 8 17
          [42] =
        (true,
         exInstC5.setBuf 3
           ((exInstC5.buffers 3) ++ encodeHeader hdr2
             ++ (encodeStack [] ++ [42])),
         [Event.flush 3, Event.message_sent (NodeId.node 9)])) := by
  constructor
  · exact (claim_C7 (Instance.mk (NodeId.node 1) "app" (RoutingTable.mk [])
      (fun _ => []) []) (some (NodeId.node 1, 4)) [] (NodeId.node 9) 8 17
      [42] (by decide)).1 rfl
  · exact (claim_C7 exInstC5 (some (NodeId.node 1, 4)) [] (NodeId.node 9) 8
      17 [42] (by decide)).2 (Endpoint.mk 3 (NodeId.node 9)) rfl

/-- Claim C8: instance::write with a payload writer reserves header_size
placeholder bytes at the buffer end, lets the writer append the payload,
sets payload_len to exactly the number of appended bytes (which fits in 32
bits by hypothesis, as asserted in the source), and back-patches the
serialized header — of exactly header_size bytes — over the reserved
region, so the final buffer is the original bytes, the patched header, and
the payload in that order. -/
theorem claim_C8 (buf : List Byte) (hdr : Header) (pwBytes : List Byte)
    (hfit : pwBytes.length < 2 ^ 32) :
    instanceWrite buf hdr (some pwBytes) =
      (buf ++ encodeHeader { hdr with payload_len := pwBytes.length }
        ++ pwBytes,
       { hdr with payload_len := pwBytes.length }) ∧
    (encodeHeader { hdr with payload_len := pwBytes.length }).length
      = header_size := by
  have h := instanceWrite_eq buf hdr pwBytes
  rw [Nat.mod_eq_of_lt hfit] at h
  exact And.intro h (encodeHeader_length _)

/-- Witness for claim C8 at a concrete buffer, header and three-byte
payload writer. -/
theorem claim_C8_witness :
    instanceWrite [9, 9] exHeaderC1 (some [1, 2, 3]) =
      ([9, 9] ++ encodeHeader { exHeaderC1 with payload_len := 3 }
        ++ [1, 2, 3],
       { exHeaderC1 with payload_len := 3 }) := by
  exact (claim_C8 [9, 9] exHeaderC1 [1, 2, 3] (by decide)).1

/-- Claim C9: handle_node_shutdown on the sentinel node is a no-op (the
whole instance state, in particular the routing table and the
published-actors map, is unchanged and no purge_state is emitted); on a
proper node it erases every route of that node and emits purge_state for
each node thus removed, touching nothing else. -/
theorem claim_C9 (ins : Instance) (n : NodeId) :
    (n = NodeId.none → ins.handle_node_shutdown n = (ins, [])) ∧
    (n ≠ NodeId.none →
      ins.handle_node_shutdown n =
        ({ ins with table :=
             RoutingTable.mk (ins.table.direct.filter (fun p => p.2 ≠ n)) },
         ((ins.table.direct.filter (fun p => p.2 = n)).map Prod.snd).map
           Event.purge_state)) := by
  constructor
  · intro hn
    simp [Instance.handle_node_shutdown, hn]
  · intro hn
    simp [Instance.handle_node_shutdown, hn, RoutingTable.eraseNode]

/-- Witness for claim C9: the sentinel is a no-op on the concrete instance
with a route, and shutting down node 9 erases its route and purges it. -/
theorem claim_C9_witness :
    exInstC5.handle_node_shutdown NodeId.none = (exInstC5, []) ∧
    exInstC5.handle_node_shutdown (NodeId.node 9) =
      ({ exInstC5 with table := RoutingTable.mk [] },
       [Event.purge_state (NodeId.node 9)]) := by
  constructor
  · exact (claim_C9 exInstC5 NodeId.none).1 rfl
  · have := (claim_C9 exInstC5 (NodeId.node 9)).2 (by decide)
    simpa using this

theorem removeAllFor_eq (whom : ActorId)
    (l : List (Nat × ActorId × List String)) :
    removeAllFor whom l =
      ((l.filter (fun p => p.2.1 = whom)).length,
       l.filter (fun p => p.2.1 ≠ whom),
       (l.filter (fun p => p.2.1 = whom)).map
         (fun p => Event.removed_cb p.2.1 p.1)) := by
  induction l with
  | nil => rfl
  | cons p rest ih =>
    by_cases hp : p.2.1 = whom <;>
      simp [removeAllFor, ih, hp, List.filter_cons]

/-- Claim C10: remove_published_actor with port zero removes every
published entry whose actor is the given one, invokes the callback exactly
once per removed entry with the actor and port of that entry, returns the
number of removed entries and keeps every entry of other actors (in
order); with a nonzero port it removes at most the single entry found at
that port, and only when the actor of that entry matches. -/
theorem claim_C10 (ins : Instance) (whom : ActorId) (port : Nat) :
    (port = 0 →
      ins.remove_published_actor whom port =
        ((ins.published.filter (fun p => p.2.1 = whom)).length,
         { ins with published :=
             ins.published.filter (fun p => p.2.1 ≠ whom) },
         (ins.published.filter (fun p => p.2.1 = whom)).map
           (fun p => Event.removed_cb p.2.1 p.1))) ∧
    (port ≠ 0 →
      (∀ p, ins.published.find? (fun q => q.1 = port) = some p →
        (p.2.1 = whom →
          ins.remove_published_actor whom port =
            (1,
             { ins with published :=
                 ins.published.eraseP (fun q => q.1 = port) },
             [Event.removed_cb p.2.1 port])) ∧
        (p.2.1 ≠ whom →
          ins.remove_published_actor whom port = (0, ins, []))) ∧
      (ins.published.find? (fun q => q.1 = port) = Option.none →
        ins.remove_published_actor whom port = (0, ins, []))) := by
  constructor
  · intro hz
    simp [Instance.remove_published_actor, hz, removeAllFor_eq]
  · intro hnz
    constructor
    · intro p hfind
      constructor
      · intro hwhom
        simp [Instance.remove_published_actor, hnz, hfind, hwhom]
      · intro hwhom
        simp [Instance.remove_published_actor, hnz, hfind, hwhom]
    · intro hfind
      simp [Instance.remove_published_actor, hnz, hfind]

/-- Witness for claim C10 on a concrete published-actors map with actor 4
on ports 80 and 81 and actor 6 on port 82: port zero removes both entries
for actor 4 with one callback each and count two; port 82 with actor 4
removes nothing; port 82 with actor 6 removes that single entry. -/
theorem claim_C10_witness :
    (Instance.mk (NodeId.node 1) "app" (RoutingTable.mk []) (fun _ => [])
        [(80, 4, []), (81, 4, []), (82, 6, [])]).remove_published_actor 4 0 =
      (2,
       { Instance.mk (NodeId.node 1) "app" (RoutingTable.mk []) (fun _ => [])
           [(80, 4, []), (81, 4, []), (82, 6, [])] with
         published := [(82, 6, [])] },
       [Event.removed_cb 4 80, Event.removed_cb 4 81]) ∧
    (Instance.mk (NodeId.node 1) "app" (RoutingTable.mk []) (fun _ => [])
        [(80, 4, []), (81, 4, []), (82, 6, [])]).remove_published_actor 4 82 =
      (0,
       Instance.mk (NodeId.node 1) "app" (RoutingTable.mk []) (fun _ => [])
         [(80, 4, []), (81, 4, []), (82, 6, [])],
       []) := by
  constructor
  · have := (claim_C10 (Instance.mk (NodeId.node 1) "app" (RoutingTable.mk [])
      (fun _ => []) [(80, 4, []), (81, 4, []), (82, 6, [])]) 4 0).1 rfl
    simpa using this
  · exact (((claim_C10 (Instance.mk (NodeId.node 1) "app" (RoutingTable.mk [])
      (fun _ => []) [(80, 4, []), (81, 4, []), (82, 6, [])]) 4 82).2
      (by decide)).1 (82, 6, []) (by decide)).2 (by decide)

end Basp
